import Mathlib

/-!
Shallow embedding of `src/AIDevlopStudy.py` (prd-assistant MCP server).

Python strings are modelled as Lean `String` (a sequence of characters;
Python slicing `s[:n]` is `List.take n` on `s.data`, `len(s)` is
`s.data.length`).  Each `datetime.now()` call site is modelled as an
explicit `String` parameter, one per call site, since successive calls
may return different values.  File-system effects (the snapshot file
`requirements.json`, the history file `history.json`, the export
artifacts) are modelled by explicit state values threaded through the
operations, with a `Bool` failure flag per write modelling an I/O error
raised by that write (Python `except` blocks become the corresponding
branches).
-/

namespace PRDAssistant

/-- An element of one of the six requirement lists: the dict built at
`requirement_manager` lines 292-296, keys in insertion order
`timestamp`, `category`, `content`. -/
structure RequirementEntry where
  timestamp : String
  category : String
  content : String
deriving DecidableEq

/-- An element of `clarification_history`: the dict built at
`requirement_clarifier` lines 184-188, keys `timestamp`, `user_input`,
`context`. -/
structure ClarificationEntry where
  timestamp : String
  user_input : String
  context : String
deriving DecidableEq

/-- An element of `architecture_designs`: the dict built at
`architecture_designer` lines 442-446, keys `timestamp`, `design_focus`,
`content`. -/
structure ArchitectureEntry where
  timestamp : String
  design_focus : String
  content : String
deriving DecidableEq

/-- The global `current_requirements` dict (lines 35-46). -/
structure RequirementDocument where
  project_overview : List RequirementEntry
  functional_requirements : List RequirementEntry
  technical_requirements : List RequirementEntry
  design_requirements : List RequirementEntry
  deployment_requirements : List RequirementEntry
  ai_constraints : List RequirementEntry
  clarification_history : List ClarificationEntry
  architecture_designs : List ArchitectureEntry
  last_updated : Option String
  project_id : Option String
deriving DecidableEq

/-- The initial value of `current_requirements` (lines 35-46): all lists
empty, `last_updated` and `project_id` both `None`. -/
def initialRequirements : RequirementDocument :=
  { project_overview := []
    functional_requirements := []
    technical_requirements := []
    design_requirements := []
    deployment_requirements := []
    ai_constraints := []
    clarification_history := []
    architecture_designs := []
    last_updated := none
    project_id := none }

/-- Contents of a parsed `requirements.json` file: a JSON object whose
keys are merged over `current_requirements` by `dict.update` at load
time (line 63).  Each field is `Option` to model a key being present or
absent in the file. -/
structure SavedDocFile where
  project_overview : Option (List RequirementEntry)
  functional_requirements : Option (List RequirementEntry)
  technical_requirements : Option (List RequirementEntry)
  design_requirements : Option (List RequirementEntry)
  deployment_requirements : Option (List RequirementEntry)
  ai_constraints : Option (List RequirementEntry)
  clarification_history : Option (List ClarificationEntry)
  architecture_designs : Option (List ArchitectureEntry)
  last_updated : Option (Option String)
  project_id : Option (Option String)
deriving DecidableEq

/-- `json.dump(current_requirements, ...)` (line 73): the snapshot file
holds every field of the document. -/
def toSavedFile (d : RequirementDocument) : SavedDocFile :=
  { project_overview := some d.project_overview
    functional_requirements := some d.functional_requirements
    technical_requirements := some d.technical_requirements
    design_requirements := some d.design_requirements
    deployment_requirements := some d.deployment_requirements
    ai_constraints := some d.ai_constraints
    clarification_history := some d.clarification_history
    architecture_designs := some d.architecture_designs
    last_updated := some d.last_updated
    project_id := some d.project_id }

/-- `current_requirements.update(saved_data)` (line 63): keys present in
the saved file override the in-memory value, absent keys keep it. -/
def updateMerge (cur : RequirementDocument) (saved : SavedDocFile) :
    RequirementDocument :=
  { project_overview := saved.project_overview.getD cur.project_overview
    functional_requirements :=
      saved.functional_requirements.getD cur.functional_requirements
    technical_requirements :=
      saved.technical_requirements.getD cur.technical_requirements
    design_requirements := saved.design_requirements.getD cur.design_requirements
    deployment_requirements :=
      saved.deployment_requirements.getD cur.deployment_requirements
    ai_constraints := saved.ai_constraints.getD cur.ai_constraints
    clarification_history :=
      saved.clarification_history.getD cur.clarification_history
    architecture_designs :=
      saved.architecture_designs.getD cur.architecture_designs
    last_updated := saved.last_updated.getD cur.last_updated
    project_id := saved.project_id.getD cur.project_id }

/-- `RequirementStorage.load_requirements` (lines 56-66): if the file
exists and parses, merge it over the current document; a missing file or
any read/parse failure (`none`-wrapped states) leaves the document
unchanged (exception caught, warning logged). -/
def load_requirements (cur : RequirementDocument)
    (file : Option (Option SavedDocFile)) : RequirementDocument :=
  match file with
  | none => cur
  | some none => cur
  | some (some saved) => updateMerge cur saved

/-- `RequirementStorage.save_requirements` (lines 68-76): sets
`last_updated` to the current time, then writes the whole document to
`requirements.json`.  The mutation of `last_updated` happens before the
write, so it survives a write failure; a write failure is caught and
logged, leaving the previous file contents (`file`) in place.  Returns
the mutated document and the new file contents. -/
def save_requirements (d : RequirementDocument) (now : String)
    (writeFails : Bool) (file : Option SavedDocFile) :
    RequirementDocument × Option SavedDocFile :=
  let d' := { d with last_updated := some now }
  if writeFails then (d', file) else (d', some (toSavedFile d'))

/-- The `category_mapping` dict of `requirement_manager` (lines 276-286),
as the `dict.get` lookup used at line 289. -/
def category_mapping (category : String) : Option String :=
  if category = "项目概述" then some "project_overview"
  else if category = "核心功能需求" then some "functional_requirements"
  else if category = "功能和UI需求" then some "functional_requirements"
  else if category = "功能需求" then some "functional_requirements"
  else if category = "技术需求" then some "technical_requirements"
  else if category = "技术和设计约束" then some "technical_requirements"
  else if category = "设计需求" then some "design_requirements"
  else if category = "部署需求" then some "deployment_requirements"
  else if category = "AI约束" then some "ai_constraints"
  else none

/-- Line 289: `category_mapping.get(category, "functional_requirements")`. -/
def storage_category (category : String) : String :=
  (category_mapping category).getD "functional_requirements"

/-- The six canonical requirement-sequence keys (values of
`category_mapping`). -/
def canonicalCategoryKeys : List String :=
  ["project_overview", "functional_requirements", "technical_requirements",
   "design_requirements", "deployment_requirements", "ai_constraints"]

/-- `current_requirements[key]` for the six requirement-sequence keys
(reading). -/
def getCategoryList (d : RequirementDocument) (key : String) :
    List RequirementEntry :=
  if key = "project_overview" then d.project_overview
  else if key = "functional_requirements" then d.functional_requirements
  else if key = "technical_requirements" then d.technical_requirements
  else if key = "design_requirements" then d.design_requirements
  else if key = "deployment_requirements" then d.deployment_requirements
  else if key = "ai_constraints" then d.ai_constraints
  else []

/-- `current_requirements[storage_category].append(requirement_entry)`
(line 298), keyed by the storage-category name.  The fallthrough branch
is unreachable for keys produced by `storage_category`. -/
def appendToCategory (d : RequirementDocument) (key : String)
    (e : RequirementEntry) : RequirementDocument :=
  if key = "project_overview" then
    { d with project_overview := d.project_overview ++ [e] }
  else if key = "functional_requirements" then
    { d with functional_requirements := d.functional_requirements ++ [e] }
  else if key = "technical_requirements" then
    { d with technical_requirements := d.technical_requirements ++ [e] }
  else if key = "design_requirements" then
    { d with design_requirements := d.design_requirements ++ [e] }
  else if key = "deployment_requirements" then
    { d with deployment_requirements := d.deployment_requirements ++ [e] }
  else if key = "ai_constraints" then
    { d with ai_constraints := d.ai_constraints ++ [e] }
  else d

/-- One element of the `history.json` array: the dict built at
`save_history_entry` lines 81-86, keys `timestamp`, `type`, `content`,
`metadata` (the metadata dict modelled as an association list). -/
structure HistoryEntry where
  timestamp : String
  type : String
  content : String
  metadata : List (String × String)
deriving DecidableEq

/-- The state of `history.json` on disk: missing, present but not valid
JSON, or a parsed array of entries. -/
inductive HistoryFile where
  | absent : HistoryFile
  | corrupt : HistoryFile
  | wellFormed : List HistoryEntry → HistoryFile
deriving DecidableEq

/-- `RequirementStorage.save_history_entry` (lines 78-100): builds the
entry, reads the existing file if present (a parse failure raises,
caught by the enclosing `except`, leaving the file untouched), appends
the entry and rewrites the whole file.  A write failure is likewise
caught and logged, leaving the previous contents.  Never raises to the
caller. -/
def save_history_entry (file : HistoryFile) (writeFails : Bool)
    (now entry_type content : String) (metadata : List (String × String)) :
    HistoryFile :=
  let history_entry : HistoryEntry := ⟨now, entry_type, content, metadata⟩
  match file with
  | HistoryFile.corrupt => HistoryFile.corrupt
  | HistoryFile.absent =>
      if writeFails then HistoryFile.absent
      else HistoryFile.wellFormed ([] ++ [history_entry])
  | HistoryFile.wellFormed history =>
      if writeFails then HistoryFile.wellFormed history
      else HistoryFile.wellFormed (history ++ [history_entry])

/-- The two files owned by `RequirementStorage`. -/
structure StorageState where
  requirements_file : Option SavedDocFile
  history_file : HistoryFile
deriving DecidableEq

/-- Result of one tool invocation: the updated in-memory document, the
updated on-disk files, and the text returned to the caller. -/
structure OpResult where
  doc : RequirementDocument
  files : StorageState
  text : String
deriving DecidableEq

/-- `sum(len(current_requirements[key]) for key in [...])` over the six
requirement sequences (lines 305-308, 466-469, 523-526). -/
def total_requirements_of (d : RequirementDocument) : Nat :=
  d.project_overview.length + d.functional_requirements.length +
  d.technical_requirements.length + d.design_requirements.length +
  d.deployment_requirements.length + d.ai_constraints.length

/-- The `analysis_prompt` f-string returned by `requirement_clarifier`
(lines 192-266). -/
def analysis_prompt (user_input context : String) : String :=
  "# 🔍 AI需求分析任务 - 必须完成\n\n## 📝 用户输入\n" ++
    user_input ++
    "\n\n## 📋 当前上下文\n" ++
    context ++
    "\n\n## 🎯 你的分析任务（AI助手必须执行）\n\n### 1. 项目类型识别\n根据用户描述，判断项目类型：\n- **Web应用**：网站、Web系统、在线平台\n- **移动应用**：手机APP、移动端应用\n- **桌面应用**：PC软件、桌面工具\n- **小程序**：微信小程序、支付宝小程序\n- **通用项目**：其他类型或混合项目\n\n### 2. 需求完整性深度分析\n检查以下关键维度是否明确：\n\n**🎯 项目目标维度**\n- 解决什么具体问题？\n- 目标用户群体是谁？\n- 预期达到什么效果？\n\n**⚙️ 功能需求维度**\n- 核心功能有哪些？（最重要的3-5个）\n- 次要功能有哪些？\n- 功能的优先级如何？\n\n**🔧 技术需求维度**\n- 有技术栈偏好吗？\n- 性能要求如何？\n- 兼容性要求？\n\n**🎨 用户体验维度**\n- 界面风格偏好？\n- 交互方式要求？\n\n**📊 规模和性能维度**\n- 预期用户规模？\n- 并发量要求？\n\n**🚀 部署和维护维度**\n- 部署环境偏好？\n- 维护方式？\n\n### 3. 智能澄清策略\n生成2-3个最重要的澄清问题：\n- 优先澄清对项目影响最大的方面\n- 提供具体选项帮助用户理解\n- 使用友好语言，避免过于技术化\n\n## 📤 输出格式要求\n\n**🔍 需求分析结果：**\n- **项目类型**：[明确识别的类型]\n- **已明确信息**：[用户已经清楚表达的需求点]\n- **需要澄清**：[不明确、有歧义或缺失的关键信息]\n\n**❓ 关键澄清问题：**\n1. [最重要的澄清问题，包含选项]\n2. [第二重要的问题，提供示例]\n3. [第三个问题，如果需要的话]\n\n**💡 专业建议：**\n[基于分析给出的建议和提示]\n\n**🎯 下一步指导：**\n[告诉用户接下来应该如何回答或思考]\n\n---\n*重要提醒：每次澄清后，请使用 requirement_manager 工具保存明确的需求信息！*\n"

/-- The `result` f-string returned by `requirement_manager` (lines
310-331).  `now` models the `datetime.now().isoformat()` call at line
315; `d` is the document after the append, from which the displayed
counts are read. -/
def requirement_manager_result (category clarified_info now : String)
    (requirements_file history_file : String) (d : RequirementDocument)
    (total_requirements : Nat) : String :=
  "# ✅ 需求文档已更新\n\n## 📝 更新信息\n- **类别**：" ++
    category ++
    "\n- **内容**：" ++
    clarified_info ++
    "\n- **时间**：" ++
    now ++
    "\n- **存储位置**：" ++
    requirements_file ++
    "\n\n## 📋 当前需求文档状态\n- **总需求条目**：" ++
    (toString total_requirements) ++
    "\n- **项目概述**：" ++
    (toString d.project_overview.length) ++
    " 条\n- **功能需求**：" ++
    (toString d.functional_requirements.length) ++
    " 条\n- **技术需求**：" ++
    (toString d.technical_requirements.length) ++
    " 条\n- **设计需求**：" ++
    (toString d.design_requirements.length) ++
    " 条\n\n## 💾 持久化存储\n- ✅ 需求已保存到: `" ++
    requirements_file ++
    "`\n- ✅ 历史记录已保存到: `" ++
    history_file ++
    "`\n\n## 🎯 下一步建议\n继续使用 requirement_clarifier 完善其他需求信息，或在需求完整后使用 architecture_designer 生成架构设计。\n"

/-- The `architecture_design` f-string built by `architecture_designer`
(lines 341-439). -/
def architecture_design_text (design_focus requirements_file : String) :
    String :=
  "# 🏗️ 项目架构设计方案\n\n## 🎯 设计目标\n- **设计重点**：" ++
    design_focus ++
    "\n- **优化目标**：AI友好、低耦合、可维护\n\n## 🏛️ 架构设计原则（针对AI开发优化）\n\n### 1. 低耦合设计原则\n- **模块独立性**：每个模块功能单一，边界清晰\n- **接口标准化**：统一的API接口规范\n- **依赖最小化**：减少模块间的强依赖关系\n- **错误隔离**：单个模块问题不影响整体系统\n\n### 2. AI友好架构原则\n- **代码可理解性**：清晰的命名和注释规范\n- **模块化开发**：避免大文件，便于AI理解和修改\n- **标准化结构**：统一的项目结构和代码组织\n- **渐进式开发**：支持分阶段实现和测试\n\n## 🔧 技术架构建议\n\n### 前端架构\n**推荐技术栈：**\n- 框架：React 18 / Vue 3 / Next.js 15\n- 状态管理：Redux Toolkit / Zustand / Pinia\n- UI组件：Ant Design / Material-UI / Tailwind CSS\n\n### 后端架构\n**推荐技术栈：**\n- 框架：FastAPI / Express.js / Spring Boot\n- 数据库：PostgreSQL / MySQL / MongoDB\n- 缓存：Redis / Memcached\n\n## 📦 功能模块划分\n\n### 核心业务模块\n1. **用户管理模块**\n   - 功能：用户注册、登录、权限管理\n   - 接口：用户CRUD、认证API\n   - AI开发提示：先实现基础认证，再添加高级功能\n\n2. **业务核心模块**\n   - 功能：[根据具体需求定制]\n   - 接口：业务逻辑API、数据处理接口\n   - AI开发提示：按功能优先级逐步实现\n\n## 📅 开发阶段规划\n\n### 第一阶段：基础框架搭建（1-2周）\n- 项目初始化和环境配置\n- 基础框架代码搭建\n- 数据库设计和初始化\n\n### 第二阶段：核心功能开发（2-4周）\n- 用户管理功能实现\n- 核心业务逻辑开发\n- 前端主要页面实现\n\n### 第三阶段：功能完善和优化（1-3周）\n- 次要功能实现\n- 性能优化和调试\n- 用户体验优化\n\n## 🤖 AI开发最佳实践\n\n### 模块开发指导\n1. **先实现核心逻辑**：专注主要功能\n2. **再添加错误处理**：完善异常处理\n3. **最后进行优化**：性能优化和代码重构\n\n### 接口设计规范\n- GET /api/users - 获取用户列表\n- POST /api/users - 创建用户\n- PUT /api/users/:id - 更新用户\n- DELETE /api/users/:id - 删除用户\n\n## 🎯 总结和建议\n\n### 架构优势\n1. **低耦合设计**：模块独立，便于维护和扩展\n2. **AI友好**：清晰的结构，便于AI理解和开发\n3. **可扩展性**：支持业务增长和功能扩展\n\n### 实施建议\n1. **分阶段实施**：按计划逐步实现\n2. **持续测试**：每个阶段都要进行充分测试\n3. **文档同步**：及时更新文档\n\n---\n\n**🎉 架构设计完成！**\n\n这个架构设计方案专门针对AI开发进行了优化，确保低耦合、AI友好的开发体验！\n\n## 💾 文档存储信息\n- **架构设计已保存到**: `" ++
    requirements_file ++
    "`\n- **完整文档导出**: 使用 `export_final_document` 工具导出完整项目文档\n"

/-- `requirement_clarifier` (lines 178-268): appends a
`ClarificationEntry`, writes the history log and the snapshot, and
returns the analysis prompt.  `tEntry`, `tHist`, `tSave` model the three
successive `datetime.now()` calls; the two `Bool`s inject write
failures. -/
def requirement_clarifier (d : RequirementDocument) (st : StorageState)
    (user_input context : String) (tEntry tHist tSave : String)
    (snapshotWriteFails historyWriteFails : Bool) : OpResult :=
  let d1 := { d with clarification_history :=
      d.clarification_history ++ [⟨tEntry, user_input, context⟩] }
  let hist := save_history_entry st.history_file historyWriteFails tHist
      "requirement_clarification" user_input [("context", context)]
  let saved := save_requirements d1 tSave snapshotWriteFails
      st.requirements_file
  ⟨saved.1, ⟨saved.2, hist⟩, analysis_prompt user_input context⟩

/-- `requirement_manager` (lines 271-333): maps the category, appends a
timestamped `RequirementEntry`, writes the history log and the snapshot,
and returns the status report text. -/
def requirement_manager (d : RequirementDocument) (st : StorageState)
    (clarified_info category : String) (tEntry tHist tSave tResult : String)
    (requirements_file_path history_file_path : String)
    (snapshotWriteFails historyWriteFails : Bool) : OpResult :=
  let requirement_entry : RequirementEntry := ⟨tEntry, category, clarified_info⟩
  let d1 := appendToCategory d (storage_category category) requirement_entry
  let hist := save_history_entry st.history_file historyWriteFails tHist
      "requirement_update" clarified_info [("category", category)]
  let saved := save_requirements d1 tSave snapshotWriteFails
      st.requirements_file
  ⟨saved.1, ⟨saved.2, hist⟩,
    requirement_manager_result category clarified_info tResult
      requirements_file_path history_file_path saved.1
      (total_requirements_of saved.1)⟩

/-- `architecture_designer` (lines 336-454): renders the fixed design
template, appends an `ArchitectureEntry` holding the full rendered text,
writes the history log and the snapshot, and returns the text. -/
def architecture_designer (d : RequirementDocument) (st : StorageState)
    (design_focus : String) (tEntry tHist tSave : String)
    (requirements_file_path : String)
    (snapshotWriteFails historyWriteFails : Bool) : OpResult :=
  let text := architecture_design_text design_focus requirements_file_path
  let d1 := { d with architecture_designs :=
      d.architecture_designs ++ [⟨tEntry, design_focus, text⟩] }
  let hist := save_history_entry st.history_file historyWriteFails tHist
      "architecture_design" text [("design_focus", design_focus)]
  let saved := save_requirements d1 tSave snapshotWriteFails
      st.requirements_file
  ⟨saved.1, ⟨saved.2, hist⟩, text⟩

/-- Sequence-wise growth: every one of the six requirement sequences and
the two history sequences of `d1` is a prefix of its counterpart in
`d2`. -/
def growsFrom (d1 d2 : RequirementDocument) : Prop :=
  d1.project_overview <+: d2.project_overview ∧
  d1.functional_requirements <+: d2.functional_requirements ∧
  d1.technical_requirements <+: d2.technical_requirements ∧
  d1.design_requirements <+: d2.design_requirements ∧
  d1.deployment_requirements <+: d2.deployment_requirements ∧
  d1.ai_constraints <+: d2.ai_constraints ∧
  d1.clarification_history <+: d2.clarification_history ∧
  d1.architecture_designs <+: d2.architecture_designs

theorem growsFrom_appendToCategory (d : RequirementDocument) (key : String)
    (e : RequirementEntry) : growsFrom d (appendToCategory d key e) := by
  unfold appendToCategory growsFrom
  split_ifs <;>
    exact ⟨by first | exact List.prefix_refl _ | exact List.prefix_append _ _,
           by first | exact List.prefix_refl _ | exact List.prefix_append _ _,
           by first | exact List.prefix_refl _ | exact List.prefix_append _ _,
           by first | exact List.prefix_refl _ | exact List.prefix_append _ _,
           by first | exact List.prefix_refl _ | exact List.prefix_append _ _,
           by first | exact List.prefix_refl _ | exact List.prefix_append _ _,
           List.prefix_refl _, List.prefix_refl _⟩

/-- C4: every mutating operation only appends: for each of the six
requirement sequences, the clarification history and the architecture
designs sequence, the sequence before the call is a prefix of the
sequence after the call; no operation edits or removes a previously
stored entry. -/
theorem operations_append_only (d : RequirementDocument) (st : StorageState)
    (user_input context clarified_info category design_focus : String)
    (t1 t2 t3 t4 t5 t6 t7 t8 t9 t10 : String)
    (reqPath histPath : String) (sf1 hf1 sf2 hf2 sf3 hf3 : Bool) :
    growsFrom d
      (requirement_clarifier d st user_input context t1 t2 t3 sf1 hf1).doc ∧
    growsFrom d
      (requirement_manager d st clarified_info category t4 t5 t6 t7
        reqPath histPath sf2 hf2).doc ∧
    growsFrom d
      (architecture_designer d st design_focus t8 t9 t10 reqPath
        sf3 hf3).doc := by
  refine ⟨?_, ?_, ?_⟩
  · unfold requirement_clarifier save_requirements
    split_ifs <;>
      exact ⟨List.prefix_refl _, List.prefix_refl _, List.prefix_refl _,
        List.prefix_refl _, List.prefix_refl _, List.prefix_refl _,
        List.prefix_append _ _, List.prefix_refl _⟩
  · have h := growsFrom_appendToCategory d (storage_category category)
      ⟨t4, category, clarified_info⟩
    unfold requirement_manager save_requirements
    split_ifs <;> exact h
  · unfold architecture_designer save_requirements
    split_ifs <;>
      exact ⟨List.prefix_refl _, List.prefix_refl _, List.prefix_refl _,
        List.prefix_refl _, List.prefix_refl _, List.prefix_refl _,
        List.prefix_refl _, List.prefix_append _ _⟩

theorem storage_category_mem (category : String) :
    storage_category category ∈ canonicalCategoryKeys := by
  unfold storage_category category_mapping canonicalCategoryKeys
  split_ifs <;> simp

theorem getCategoryList_set_last_updated (d : RequirementDocument)
    (v : Option String) (key : String) :
    getCategoryList { d with last_updated := v } key = getCategoryList d key := by
  unfold getCategoryList
  split_ifs <;> rfl

theorem getCategoryList_appendToCategory_self (d : RequirementDocument)
    (key : String) (e : RequirementEntry) (hk : key ∈ canonicalCategoryKeys) :
    getCategoryList (appendToCategory d key e) key =
      getCategoryList d key ++ [e] := by
  simp only [canonicalCategoryKeys, List.mem_cons, List.mem_singleton,
    List.not_mem_nil, or_false] at hk
  rcases hk with rfl | rfl | rfl | rfl | rfl | rfl <;>
    simp [appendToCategory, getCategoryList]

theorem getCategoryList_appendToCategory_other (d : RequirementDocument)
    (key k : String) (e : RequirementEntry)
    (hkey : key ∈ canonicalCategoryKeys) (hmem : k ∈ canonicalCategoryKeys)
    (hk : k ≠ key) :
    getCategoryList (appendToCategory d key e) k = getCategoryList d k := by
  simp only [canonicalCategoryKeys, List.mem_cons, List.not_mem_nil,
    or_false] at hkey hmem
  rcases hkey with rfl | rfl | rfl | rfl | rfl | rfl <;>
    rcases hmem with rfl | rfl | rfl | rfl | rfl | rfl <;>
      first
      | exact absurd rfl hk
      | simp [appendToCategory, getCategoryList]

theorem save_requirements_fst (d : RequirementDocument) (now : String)
    (w : Bool) (f : Option SavedDocFile) :
    (save_requirements d now w f).1 = { d with last_updated := some now } := by
  unfold save_requirements
  split_ifs <;> rfl

theorem requirement_manager_doc (d : RequirementDocument) (st : StorageState)
    (ci cat t1 t2 t3 t4 rp hp : String) (sf hf : Bool) :
    (requirement_manager d st ci cat t1 t2 t3 t4 rp hp sf hf).doc =
      { appendToCategory d (storage_category cat) ⟨t1, cat, ci⟩ with
        last_updated := some t3 } := by
  unfold requirement_manager save_requirements
  split_ifs <;> rfl

/-- C6: for every category string and every non-empty content string,
`requirement_manager` maps the category through the fixed lookup table
to one of the six canonical sequences and appends exactly one
timestamped entry there, leaving the other canonical sequences
unchanged; a category not in the table maps to
`functional_requirements`.  The operation is a total function: it never
raises or rejects the input. -/
theorem requirement_manager_category_mapping (d : RequirementDocument)
    (st : StorageState) (clarified_info category : String)
    (tEntry tHist tSave tResult reqPath histPath : String) (sf hf : Bool)
    (h : clarified_info ≠ "") :
    storage_category category ∈ canonicalCategoryKeys ∧
    (category_mapping category = none →
      storage_category category = "functional_requirements") ∧
    getCategoryList
        (requirement_manager d st clarified_info category tEntry tHist tSave
          tResult reqPath histPath sf hf).doc (storage_category category) =
      getCategoryList d (storage_category category) ++
        [⟨tEntry, category, clarified_info⟩] ∧
    ∀ k ∈ canonicalCategoryKeys, k ≠ storage_category category →
      getCategoryList
          (requirement_manager d st clarified_info category tEntry tHist tSave
            tResult reqPath histPath sf hf).doc k =
        getCategoryList d k := by
  refine ⟨storage_category_mem category, ?_, ?_, ?_⟩
  · intro hnone
    unfold storage_category
    rw [hnone]
    rfl
  · rw [requirement_manager_doc, getCategoryList_set_last_updated,
      getCategoryList_appendToCategory_self d _ _ (storage_category_mem category)]
  · intro k hkmem hk
    rw [requirement_manager_doc, getCategoryList_set_last_updated,
      getCategoryList_appendToCategory_other d _ k _
        (storage_category_mem category) hkmem hk]

/-- Witness for C6 at the unrecognized category
`"unrecognized-category-xyz"` and content `"Y"` (the spec's own
example). -/
theorem requirement_manager_category_mapping_witness :
    storage_category "unrecognized-category-xyz" = "functional_requirements" ∧
    getCategoryList
        (requirement_manager initialRequirements
          ⟨none, HistoryFile.absent⟩ "Y" "unrecognized-category-xyz"
          "t1" "t2" "t3" "t4" "rp" "hp" false false).doc
        "functional_requirements" =
      [⟨"t1", "unrecognized-category-xyz", "Y"⟩] := by
  have h := requirement_manager_category_mapping initialRequirements
    ⟨none, HistoryFile.absent⟩ "Y" "unrecognized-category-xyz"
    "t1" "t2" "t3" "t4" "rp" "hp" false false (by decide)
  have hdef : storage_category "unrecognized-category-xyz" =
      "functional_requirements" := h.2.1 (by decide)
  refine ⟨hdef, ?_⟩
  have h3 := h.2.2.1
  rw [hdef] at h3
  simpa [getCategoryList, initialRequirements] using h3

/-- C5: persisting the snapshot and reloading it over the in-memory
defaults yields a document structurally equal to the document at the
moment of persistence (which is the pre-save document with
`last_updated` set to the save time). -/
theorem save_load_round_trip (d : RequirementDocument) (now : String)
    (file : Option SavedDocFile) :
    ∃ f : SavedDocFile,
      (save_requirements d now false file).2 = some f ∧
      load_requirements initialRequirements (some (some f)) =
        (save_requirements d now false file).1 := by
  refine ⟨toSavedFile { d with last_updated := some now }, rfl, ?_⟩
  rfl

/-- One preview line of `view_requirements_status` (lines 545-547,
554-556, 563-565):
`f"{i}. {content[:100]}{'...' if len(content) > 100 else ''}\n"`.
Entries are always dicts in this model, so the `isinstance` test at the
preceding line always selects `item['content']`. -/
def preview_line (i : Nat) (content : String) : String :=
  toString i ++ ". " ++ String.mk (content.data.take 100) ++
    (if content.data.length > 100 then "..." else "") ++ "\n"

/-- The preview lines for one requirement list, numbered from 1
(`enumerate(..., 1)`). -/
def preview_lines (items : List RequirementEntry) : String :=
  String.join (items.enum.map (fun p => preview_line (p.1 + 1) p.2.content))

/-- One architecture-design line (lines 572-575):
`f"{i}. 设计重点: {focus} (生成时间: {timestamp[:19]})\n"`. -/
def design_line (i : Nat) (design : ArchitectureEntry) : String :=
  toString i ++ ". 设计重点: " ++ design.design_focus ++ " (生成时间: " ++
    String.mk (design.timestamp.data.take 19) ++ ")\n"

/-- The architecture-design lines, numbered from 1. -/
def design_lines (items : List ArchitectureEntry) : String :=
  String.join (items.enum.map (fun p => design_line (p.1 + 1) p.2))

/-- `current_requirements.get('last_updated', '未更新')` rendered in the
f-string at line 533: the key is always present in the dict, so the
default never applies; a `None` value renders as `"None"`. -/
def last_updated_display_of (d : RequirementDocument) : String :=
  match d.last_updated with
  | none => "None"
  | some s => s

/-- Suggestion line appended when `total_requirements < 3` (line 587). -/
def clarify_more_suggestion : String :=
  "- 📝 需求信息较少，建议继续使用 requirement_clarifier 澄清更多需求\n"

/-- Suggestion line appended when `total_architectures == 0` (line 590). -/
def generate_architecture_suggestion : String :=
  "- 🏗️ 尚未生成架构设计，建议使用 architecture_designer 生成技术方案\n"

/-- First suggestion line appended when `total_requirements >= 3 and
total_architectures >= 1` (line 593). -/
def ready_to_export_suggestion : String :=
  "- 📄 需求和架构已基本完善，可以使用 export_final_document 导出完整文档\n"

/-- The three conditional "next step" appends of
`view_requirements_status` (lines 586-594), in source order. -/
def next_step_suggestions (total_requirements total_architectures : Nat) :
    String :=
  (if total_requirements < 3 then clarify_more_suggestion else "") ++
  (if total_architectures = 0 then generate_architecture_suggestion else "") ++
  (if 3 ≤ total_requirements ∧ 1 ≤ total_architectures then
    ready_to_export_suggestion ++ "- 🚀 可以开始项目开发了！\n"
  else "")

/-- Everything `view_requirements_status` appends before the conditional
suggestions (lines 530-584): the header statistics, the per-category
previews and the file information.  `requirements_file_size` models
`storage.requirements_file.stat().st_size` (0 when the file does not
exist). -/
def view_pre (d : RequirementDocument)
    (storage_dir requirements_file history_file : String)
    (requirements_file_size : Nat) : String :=
  let total_clarifications := d.clarification_history.length
  let total_requirements := total_requirements_of d
  let total_architectures := d.architecture_designs.length
  let last_updated_display := last_updated_display_of d
  "# 📋 当前需求文档状态\n\n## 📊 总体统计\n- **最后更新**: " ++
    last_updated_display ++
    "\n- **需求澄清次数**: " ++
    (toString total_clarifications) ++
    "\n- **需求条目总数**: " ++
    (toString total_requirements) ++
    "\n- **架构设计方案**: " ++
    (toString total_architectures) ++
    "\n- **存储位置**: `" ++
    storage_dir ++
    "`\n\n## 📝 需求分类详情\n\n### 🎯 项目概述 (" ++
    (toString d.project_overview.length) ++
    " 条)\n" ++
  preview_lines d.project_overview ++
  ("\n### ⚙️ 功能需求 (" ++
    (toString d.functional_requirements.length) ++
    " 条)\n") ++
  preview_lines d.functional_requirements ++
  ("\n### 🔧 技术需求 (" ++
    (toString d.technical_requirements.length) ++
    " 条)\n") ++
  preview_lines d.technical_requirements ++
  ("\n### 🏗️ 架构设计 (" ++
    (toString d.architecture_designs.length) ++
    " 个)\n") ++
  design_lines d.architecture_designs ++
  ("\n## 📁 文件信息\n- **需求文档**: `" ++
    requirements_file ++
    "`\n- **历史记录**: `" ++
    history_file ++
    "`\n- **文件大小**: 需求文档 " ++
    (toString requirements_file_size) ++
    " 字节\n\n## 🎯 下一步建议\n")

/-- The fixed tools block appended last (lines 596-603). -/
def view_tools_text : String :=
  "\n## 🛠️ 可用工具\n- `requirement_clarifier`: 澄清和分析需求\n- `requirement_manager`: 管理和保存需求\n- `architecture_designer`: 生成架构设计\n- `export_final_document`: 导出完整文档\n- `view_requirements_status`: 查看当前状态（当前工具）\n"

/-- `view_requirements_status` (lines 517-605): the status report is the
header/previews part, then the conditional suggestions, then the tools
block. -/
def view_requirements_status (d : RequirementDocument)
    (storage_dir requirements_file history_file : String)
    (requirements_file_size : Nat) : String :=
  view_pre d storage_dir requirements_file history_file
      requirements_file_size ++
    next_step_suggestions (total_requirements_of d)
      d.architecture_designs.length ++
    view_tools_text

/-- C7: in every preview line of `view_requirements_status`, a content
string of length strictly greater than 100 characters is shown as its
first 100 characters followed by the ellipsis marker `...`, and a
content string of length 100 or less is shown in full with no
ellipsis. -/
theorem preview_line_truncation (i : Nat) (content : String) :
    (content.data.length > 100 →
      preview_line i content =
        toString i ++ ". " ++ String.mk (content.data.take 100) ++
          "..." ++ "\n") ∧
    (content.data.length ≤ 100 →
      preview_line i content = toString i ++ ". " ++ content ++ "\n") := by
  constructor
  · intro h
    unfold preview_line
    rw [if_pos h]
  · intro h
    unfold preview_line
    rw [if_neg (by omega), List.take_of_length_le h]
    apply String.ext
    simp [String.data_append]

/-- Witness for C7 at a 101-character and a 100-character content
string. -/
theorem preview_line_truncation_witness :
    preview_line 1 (String.mk (List.replicate 101 'a')) =
      toString 1 ++ ". " ++
        String.mk ((List.replicate 101 'a').take 100) ++ "..." ++ "\n" ∧
    preview_line 1 (String.mk (List.replicate 100 'a')) =
      toString 1 ++ ". " ++ String.mk (List.replicate 100 'a') ++ "\n" := by
  exact ⟨(preview_line_truncation 1 _).1 (by simp),
         (preview_line_truncation 1 _).2 (by simp)⟩

/-- C8: when the total requirement count is strictly below 3 and there
are no architecture designs, the text returned by
`view_requirements_status` contains both the clarify-more and the
generate-architecture suggestions; when the total is at least 3 and
there is at least one architecture design, it contains the
ready-to-export suggestion while the suggestions block omits the other
two (containment is read on the conditional suggestions block the code
appends; the surrounding report text never produces these lines
itself). -/
theorem view_status_suggestions (d : RequirementDocument)
    (storage_dir requirements_file history_file : String)
    (requirements_file_size : Nat) :
    (total_requirements_of d < 3 → d.architecture_designs.length = 0 →
      clarify_more_suggestion.data <:+:
        (view_requirements_status d storage_dir requirements_file
          history_file requirements_file_size).data ∧
      generate_architecture_suggestion.data <:+:
        (view_requirements_status d storage_dir requirements_file
          history_file requirements_file_size).data) ∧
    (3 ≤ total_requirements_of d → 1 ≤ d.architecture_designs.length →
      ready_to_export_suggestion.data <:+:
        (view_requirements_status d storage_dir requirements_file
          history_file requirements_file_size).data ∧
      ¬ clarify_more_suggestion.data <:+:
        (next_step_suggestions (total_requirements_of d)
          d.architecture_designs.length).data ∧
      ¬ generate_architecture_suggestion.data <:+:
        (next_step_suggestions (total_requirements_of d)
          d.architecture_designs.length).data) := by
  have hrep : (view_requirements_status d storage_dir requirements_file
      history_file requirements_file_size).data =
      (view_pre d storage_dir requirements_file history_file
          requirements_file_size).data ++
        (next_step_suggestions (total_requirements_of d)
          d.architecture_designs.length).data ++
        view_tools_text.data := by
    simp [view_requirements_status, String.data_append]
  have hblockInfix : (next_step_suggestions (total_requirements_of d)
      d.architecture_designs.length).data <:+:
      (view_requirements_status d storage_dir requirements_file
        history_file requirements_file_size).data := by
    rw [hrep]
    exact List.infix_append _ _ _
  constructor
  · intro h1 h2
    have hb : next_step_suggestions (total_requirements_of d)
        d.architecture_designs.length =
        clarify_more_suggestion ++ generate_architecture_suggestion ++ "" := by
      unfold next_step_suggestions
      rw [if_pos h1, if_pos h2, if_neg (by omega)]
    have hbdata : (next_step_suggestions (total_requirements_of d)
        d.architecture_designs.length).data =
        clarify_more_suggestion.data ++
          generate_architecture_suggestion.data ++ [] := by
      rw [hb]
      simp [String.data_append]
    constructor
    · refine List.IsInfix.trans ?_ hblockInfix
      rw [hbdata, List.append_nil]
      exact (List.prefix_append _ _).isInfix
    · refine List.IsInfix.trans ?_ hblockInfix
      rw [hbdata]
      exact List.infix_append _ _ _
  · intro h1 h2
    have hb : next_step_suggestions (total_requirements_of d)
        d.architecture_designs.length =
        "" ++ "" ++ (ready_to_export_suggestion ++
          "- 🚀 可以开始项目开发了！\n") := by
      unfold next_step_suggestions
      rw [if_neg (by omega), if_neg (by omega), if_pos ⟨h1, h2⟩]
    refine ⟨?_, ?_, ?_⟩
    · refine List.IsInfix.trans ?_ hblockInfix
      rw [hb]
      have : (("" ++ "" ++ (ready_to_export_suggestion ++
          "- 🚀 可以开始项目开发了！\n")) : String).data =
          [] ++ ready_to_export_suggestion.data ++
            "- 🚀 可以开始项目开发了！\n".data := by
        simp [String.data_append]
      rw [this]
      exact List.infix_append _ _ _
    · rw [hb]
      decide
    · rw [hb]
      decide

/-- A concrete document with three requirement entries and one
architecture design, for the C8 witness. -/
def docWithThree : RequirementDocument :=
  { initialRequirements with
      functional_requirements :=
        [⟨"t", "c", "x"⟩, ⟨"t", "c", "y"⟩, ⟨"t", "c", "z"⟩]
      architecture_designs := [⟨"t", "f", "design"⟩] }

/-- Witness for C8: the empty document (0 requirements, 0 designs) shows
both early suggestions; `docWithThree` (3 requirements, 1 design) shows
the export suggestion and the suggestions block omits the other two. -/
theorem view_status_suggestions_witness :
    (clarify_more_suggestion.data <:+:
      (view_requirements_status initialRequirements "sd" "rf" "hf" 0).data) ∧
    (generate_architecture_suggestion.data <:+:
      (view_requirements_status initialRequirements "sd" "rf" "hf" 0).data) ∧
    (ready_to_export_suggestion.data <:+:
      (view_requirements_status docWithThree "sd" "rf" "hf" 0).data) ∧
    (¬ clarify_more_suggestion.data <:+:
      (next_step_suggestions (total_requirements_of docWithThree)
        docWithThree.architecture_designs.length).data) ∧
    (¬ generate_architecture_suggestion.data <:+:
      (next_step_suggestions (total_requirements_of docWithThree)
        docWithThree.architecture_designs.length).data) := by
  have h1 := (view_status_suggestions initialRequirements "sd" "rf" "hf" 0).1
    (by decide) (by decide)
  have h2 := (view_status_suggestions docWithThree "sd" "rf" "hf" 0).2
    (by decide) (by decide)
  exact ⟨h1.1, h1.2, h2.1, h2.2.1, h2.2.2⟩

/-- Python `str()` of a requirement-entry dict, keys in insertion order
(`timestamp`, `category`, `content`); models CPython `repr` for field
strings containing no quote, backslash or control characters. -/
def pyStrRequirementEntry (e : RequirementEntry) : String :=
  "\x7b\x27timestamp\x27: \x27" ++ e.timestamp ++ "\x27, \x27category\x27: \x27" ++
    e.category ++ "\x27, \x27content\x27: \x27" ++ e.content ++ "\x27\x7d"

/-- Python `str()` of a clarification-entry dict (`timestamp`,
`user_input`, `context`), same conventions. -/
def pyStrClarificationEntry (e : ClarificationEntry) : String :=
  "\x7b\x27timestamp\x27: \x27" ++ e.timestamp ++ "\x27, \x27user_input\x27: \x27" ++
    e.user_input ++ "\x27, \x27context\x27: \x27" ++ e.context ++ "\x27\x7d"

/-- Python `str()` of an architecture-entry dict (`timestamp`,
`design_focus`, `content`), same conventions. -/
def pyStrArchitectureEntry (e : ArchitectureEntry) : String :=
  "\x7b\x27timestamp\x27: \x27" ++ e.timestamp ++ "\x27, \x27design_focus\x27: \x27" ++
    e.design_focus ++ "\x27, \x27content\x27: \x27" ++ e.content ++ "\x27\x7d"

/-- `RequirementStorage.generate_markdown_report` (lines 129-172), as the
sequence of `f.write` calls accumulated into one string.  `genTime`
models `datetime.now().strftime('%Y-%m-%d %H:%M:%S')`.  Each loop writes
`f"- {item}\n"` — the whole dict, via `str()` — and each section is
emitted only when its list is truthy (non-empty). -/
def generate_markdown_report (d : RequirementDocument) (genTime : String) :
    String :=
  let out := "# 🚀 AI开发项目需求与架构文档\n\n"
  let out := out ++ ("**生成时间**: " ++ genTime ++ "\n\n")
  let out := if d.project_overview ≠ [] then
      (d.project_overview.foldl
        (fun acc item => acc ++ ("- " ++ pyStrRequirementEntry item ++ "\n"))
        (out ++ "## 📋 项目概述\n\n")) ++ "\n"
    else out
  let out := if d.functional_requirements ≠ [] then
      (d.functional_requirements.foldl
        (fun acc item => acc ++ ("- " ++ pyStrRequirementEntry item ++ "\n"))
        (out ++ "## ⚙️ 功能需求\n\n")) ++ "\n"
    else out
  let out := if d.technical_requirements ≠ [] then
      (d.technical_requirements.foldl
        (fun acc item => acc ++ ("- " ++ pyStrRequirementEntry item ++ "\n"))
        (out ++ "## 🔧 技术需求\n\n")) ++ "\n"
    else out
  let out := if d.architecture_designs ≠ [] then
      d.architecture_designs.foldl
        (fun acc design => acc ++ (pyStrArchitectureEntry design ++ "\n\n"))
        (out ++ "## 🏗️ 架构设计\n\n")
    else out
  let out := if d.clarification_history ≠ [] then
      (d.clarification_history.foldl
        (fun acc item => acc ++ ("- " ++ pyStrClarificationEntry item ++ "\n"))
        (out ++ "## 📝 需求澄清历史\n\n")) ++ "\n"
    else out
  out

/-- Concatenation of one rendered line per element, in order. -/
def joinedLines {α : Type} (f : α → String) : List α → String
  | [] => ""
  | x :: xs => f x ++ joinedLines f xs

theorem foldl_write_lines {α : Type} (f : α → String) (init : String)
    (l : List α) :
    l.foldl (fun acc x => acc ++ f x) init = init ++ joinedLines f l := by
  induction l generalizing init with
  | nil => simp [joinedLines]
  | cons x xs ih =>
      simp only [List.foldl_cons, joinedLines, ih, String.append_assoc]

set_option maxRecDepth 8192 in
/-- C2 counterexample: for a document with one functional requirement
whose `content` is `"hello"`, the report does not contain the bullet
line `- hello` that the claim prescribes; the bullet text is the `str()`
rendering of the whole entry dict instead. -/
theorem markdown_bullet_not_content_field :
    ¬ ("- hello\n".data <:+:
        (generate_markdown_report
          { initialRequirements with
              functional_requirements := [⟨"T", "C", "hello"⟩] }
          "2024-01-01 00:00:00").data) ∧
    (("- \x7b\x27timestamp\x27: \x27T\x27, \x27category\x27: \x27C\x27, \x27content\x27: \x27hello\x27\x7d\n").data <:+:
        (generate_markdown_report
          { initialRequirements with
              functional_requirements := [⟨"T", "C", "hello"⟩] }
          "2024-01-01 00:00:00").data) := by
  constructor
  · decide
  · decide

/-- C2 amended: the Markdown report renders its sections in the fixed
order overview, functional requirements, technical requirements,
architecture designs, clarification history (each section omitted when
its list is empty); the three requirement sections and the clarification
section are bullet lists whose bullet text is the `str()` rendering of
the whole entry record (not the `content` field alone), and the
architecture section writes each record's `str()` rendering as a raw
paragraph without a bullet. -/
theorem markdown_report_structure (d : RequirementDocument)
    (genTime : String) :
    generate_markdown_report d genTime =
      "# 🚀 AI开发项目需求与架构文档\n\n" ++
      ("**生成时间**: " ++ genTime ++ "\n\n") ++
      (if d.project_overview ≠ [] then
        "## 📋 项目概述\n\n" ++
          joinedLines (fun e => "- " ++ pyStrRequirementEntry e ++ "\n")
            d.project_overview ++ "\n"
      else "") ++
      (if d.functional_requirements ≠ [] then
        "## ⚙️ 功能需求\n\n" ++
          joinedLines (fun e => "- " ++ pyStrRequirementEntry e ++ "\n")
            d.functional_requirements ++ "\n"
      else "") ++
      (if d.technical_requirements ≠ [] then
        "## 🔧 技术需求\n\n" ++
          joinedLines (fun e => "- " ++ pyStrRequirementEntry e ++ "\n")
            d.technical_requirements ++ "\n"
      else "") ++
      (if d.architecture_designs ≠ [] then
        "## 🏗️ 架构设计\n\n" ++
          joinedLines (fun e => pyStrArchitectureEntry e ++ "\n\n")
            d.architecture_designs
      else "") ++
      (if d.clarification_history ≠ [] then
        "## 📝 需求澄清历史\n\n" ++
          joinedLines (fun e => "- " ++ pyStrClarificationEntry e ++ "\n")
            d.clarification_history ++ "\n"
      else "") := by
  unfold generate_markdown_report
  simp only [foldl_write_lines]
  split_ifs <;>
    · apply String.ext
      simp [String.data_append, List.append_assoc]

/-- File-system outcome of `RequirementStorage.export_final_document`:
which artifacts got written (path, and for the Markdown file also the
content rendered by `generate_markdown_report`), and the method's return
value. -/
structure ExportOutcome where
  json_file : Option String
  md_file : Option (String × String)
  result : Option String
deriving DecidableEq

/-- `RequirementStorage.export_final_document` (lines 102-127).  `tJson`
and `tMd` model the two separate `datetime.now().strftime(...)` calls
producing the file-name timestamps, `tGen` the one inside the Markdown
renderer; the two flags inject an I/O failure at the corresponding
write.  A JSON-write failure raises, is caught by the method's `except`
(lines 125-127) and yields `None`; `generate_markdown_report` catches
its own failure internally (lines 171-172) and never propagates, so the
method still returns the JSON path. -/
def export_final_document_storage (d : RequirementDocument)
    (tJson tMd tGen : String) (jsonWriteFails mdWriteFails : Bool)
    (storage_dir : String) : ExportOutcome :=
  if jsonWriteFails then
    { json_file := none, md_file := none, result := none }
  else
    let export_file := storage_dir ++ "/final_document_" ++ tJson ++ ".json"
    let md_path := storage_dir ++ "/final_document_" ++ tMd ++ ".md"
    { json_file := some export_file
      md_file := if mdWriteFails then none
        else some (md_path, generate_markdown_report d tGen)
      result := some export_file }

/-- C1 counterexample: with the JSON write succeeding and the Markdown
write failing, `export_final_document` returns the JSON path — a
success result, not the failure the claim prescribes — while no Markdown
file is written. -/
theorem export_md_failure_still_succeeds :
    (export_final_document_storage initialRequirements "20240101_000000"
      "20240101_000000" "g" false true "./mcp_data").result =
      some "./mcp_data/final_document_20240101_000000.json" ∧
    (export_final_document_storage initialRequirements "20240101_000000"
      "20240101_000000" "g" false true "./mcp_data").md_file = none := by
  exact ⟨rfl, rfl⟩

/-- C1 amended: a JSON-write failure makes `export_final_document`
return a failure (`None`); a failure confined to the Markdown render is
caught inside `generate_markdown_report` and only logged, so the
operation still returns the JSON path as a success result, and the
already-completed JSON write is not rolled back. -/
theorem export_failure_handling (d : RequirementDocument)
    (tJson tMd tGen storage_dir : String) (mdWriteFails : Bool) :
    (export_final_document_storage d tJson tMd tGen false mdWriteFails
        storage_dir).result =
      some (storage_dir ++ "/final_document_" ++ tJson ++ ".json") ∧
    (export_final_document_storage d tJson tMd tGen false mdWriteFails
        storage_dir).json_file =
      some (storage_dir ++ "/final_document_" ++ tJson ++ ".json") ∧
    (export_final_document_storage d tJson tMd tGen true mdWriteFails
        storage_dir).result = none := by
  exact ⟨rfl, rfl, rfl⟩

/-- Python `str.replace` on character lists, for a non-empty pattern:
leftmost, non-overlapping replacement of every occurrence. -/
def pyReplaceAux (pat rep : List Char) : List Char → List Char
  | [] => []
  | c :: rest =>
      if h : pat ≠ [] ∧ pat <+: (c :: rest) then
        rep ++ pyReplaceAux pat rep ((c :: rest).drop pat.length)
      else
        c :: pyReplaceAux pat rep rest
termination_by l => l.length
decreasing_by
  · simp only [List.length_drop]
    have hp : 0 < pat.length := List.length_pos.mpr h.1
    simp
    omega
  · simp

/-- `export_path.replace('.json', '.md')` (line 477). -/
def pyReplace (s pat rep : String) : String :=
  String.mk (pyReplaceAux pat.data rep.data s.data)

/-- The success text of the `export_final_document` tool (lines
472-505). -/
def export_success_text (export_path now : String) (d : RequirementDocument)
    (storage_dir : String) : String :=
  let total_clarifications := d.clarification_history.length
  let total_requirements := total_requirements_of d
  let total_architectures := d.architecture_designs.length
  "# 📄 项目文档导出完成\n\n## ✅ 导出信息\n- **导出时间**: " ++
    now ++
    "\n- **文件路径**: `" ++
    export_path ++
    "`\n- **Markdown版本**: `" ++
    (pyReplace export_path ".json" ".md") ++
    "`\n\n## 📊 文档统计\n- **需求澄清次数**: " ++
    (toString total_clarifications) ++
    "\n- **需求条目总数**: " ++
    (toString total_requirements) ++
    "\n- **架构设计方案**: " ++
    (toString total_architectures) ++
    "\n\n## 📁 存储目录结构\n```\n" ++
    storage_dir ++
    "/\n├── requirements.json      # 实时需求文档\n├── history.json          # 操作历史记录\n├── final_document_*.json # 导出的完整文档\n└── final_document_*.md   # Markdown格式报告\n```\n\n## 🎯 文档用途\n- **requirements.json**: 实时更新的结构化需求数据\n- **history.json**: 完整的操作历史，便于追溯\n- **final_document_*.json**: 完整项目文档，包含所有信息\n- **final_document_*.md**: 人类可读的Markdown报告\n\n## 💡 使用建议\n1. 将导出的文档保存到项目仓库中\n2. 使用Markdown文件作为项目README的基础\n3. JSON文件可用于后续的自动化处理\n\n**🎉 项目文档已完整保存，可以开始开发了！**\n"

/-- The failure text of the `export_final_document` tool (lines
507-512): a plain (non-f) string, so `\x7bstorage.storage_dir\x7d` is a
literal character sequence, not an interpolation. -/
def export_failure_text : String :=
  "# ❌ 文档导出失败\n\n请检查存储目录权限和磁盘空间。\n\n**存储目录**: `\x7bstorage.storage_dir\x7d`\n"

/-- The `export_final_document` tool (lines 457-514).  `export_path` is
the storage method's return value; `if export_path:` is Python
truthiness, so both `None` and the empty string select the failure
text. -/
def export_final_document_tool (d : RequirementDocument)
    (export_path : Option String) (now storage_dir : String) : String :=
  match export_path with
  | some p =>
      if p = "" then export_failure_text
      else export_success_text p now d storage_dir
  | none => export_failure_text

/-- C9: whenever the store returns no export path, the tool's returned
text is a constant independent of the actual storage directory and
contains the literal character sequence `\x7bstorage.storage_dir\x7d`
(the failure message is a plain, non-interpolated string). -/
theorem export_failure_text_not_interpolated (d : RequirementDocument)
    (now storage_dir other_dir : String) :
    export_final_document_tool d none now storage_dir = export_failure_text ∧
    export_final_document_tool d none now storage_dir =
      export_final_document_tool d none now other_dir ∧
    ("\x7bstorage.storage_dir\x7d".data <:+:
      (export_final_document_tool d none now storage_dir).data) := by
  refine ⟨rfl, rfl, ?_⟩
  show "\x7bstorage.storage_dir\x7d".data <:+: export_failure_text.data
  decide

theorem requirement_clarifier_doc (d : RequirementDocument)
    (st : StorageState) (ui cx t1 t2 t3 : String) (sf hf : Bool) :
    (requirement_clarifier d st ui cx t1 t2 t3 sf hf).doc =
      { d with
        clarification_history := d.clarification_history ++ [⟨t1, ui, cx⟩]
        last_updated := some t3 } := by
  unfold requirement_clarifier save_requirements
  split_ifs <;> rfl

theorem architecture_designer_doc (d : RequirementDocument)
    (st : StorageState) (df t1 t2 t3 rp : String) (sf hf : Bool) :
    (architecture_designer d st df t1 t2 t3 rp sf hf).doc =
      { d with
        architecture_designs :=
          d.architecture_designs ++ [⟨t1, df, architecture_design_text df rp⟩]
        last_updated := some t3 } := by
  unfold architecture_designer save_requirements
  split_ifs <;> rfl

theorem requirement_manager_text (d : RequirementDocument)
    (st : StorageState) (ci cat t1 t2 t3 t4 rp hp : String) (sf hf : Bool) :
    (requirement_manager d st ci cat t1 t2 t3 t4 rp hp sf hf).text =
      requirement_manager_result cat ci t4 rp hp
        { appendToCategory d (storage_category cat) ⟨t1, cat, ci⟩ with
          last_updated := some t3 }
        (total_requirements_of
          { appendToCategory d (storage_category cat) ⟨t1, cat, ci⟩ with
            last_updated := some t3 }) := by
  unfold requirement_manager save_requirements
  split_ifs <;> rfl

/-- C3 counterexample: at a concrete input, injecting failures of both
the snapshot write and the history write leaves the text returned by
`requirement_manager` exactly equal to the text of the fully successful
run — the failure is not surfaced in the returned text at all (the text
still shows the success markers), even though the writes really did not
happen (both files are unchanged). -/
theorem persist_failure_not_surfaced :
    (requirement_manager initialRequirements ⟨none, HistoryFile.absent⟩
      "info" "项目概述" "t1" "t2" "t3" "t4" "rp" "hp" true true).text =
    (requirement_manager initialRequirements ⟨none, HistoryFile.absent⟩
      "info" "项目概述" "t1" "t2" "t3" "t4" "rp" "hp" false false).text ∧
    (requirement_manager initialRequirements ⟨none, HistoryFile.absent⟩
      "info" "项目概述" "t1" "t2" "t3" "t4" "rp" "hp" true true).files.requirements_file
      = none ∧
    (requirement_manager initialRequirements ⟨none, HistoryFile.absent⟩
      "info" "项目概述" "t1" "t2" "t3" "t4" "rp" "hp" true true).files.history_file
      = HistoryFile.absent := by
  exact ⟨rfl, rfl, rfl⟩

/-- C3 amended: when the snapshot or history write fails during a
mutating operation, the failure is only logged: the returned text and
the in-memory document are identical to those of a fully successful run
(no failure note of any kind is added to the text), and the in-memory
mutation that already occurred is not rolled back. -/
theorem persist_failure_only_logged (d : RequirementDocument)
    (st : StorageState)
    (user_input context clarified_info category design_focus : String)
    (t1 t2 t3 t4 t5 t6 t7 t8 t9 t10 rp hp : String)
    (sf1 hf1 sf2 hf2 sf3 hf3 : Bool) :
    ((requirement_clarifier d st user_input context t1 t2 t3 sf1 hf1).text =
        (requirement_clarifier d st user_input context t1 t2 t3
          false false).text ∧
      (requirement_clarifier d st user_input context t1 t2 t3 sf1 hf1).doc =
        (requirement_clarifier d st user_input context t1 t2 t3
          false false).doc ∧
      (requirement_clarifier d st user_input context t1 t2 t3
          sf1 hf1).doc.clarification_history =
        d.clarification_history ++ [⟨t1, user_input, context⟩]) ∧
    ((requirement_manager d st clarified_info category t4 t5 t6 t7 rp hp
          sf2 hf2).text =
        (requirement_manager d st clarified_info category t4 t5 t6 t7 rp hp
          false false).text ∧
      (requirement_manager d st clarified_info category t4 t5 t6 t7 rp hp
          sf2 hf2).doc =
        (requirement_manager d st clarified_info category t4 t5 t6 t7 rp hp
          false false).doc ∧
      getCategoryList
          (requirement_manager d st clarified_info category t4 t5 t6 t7 rp hp
            sf2 hf2).doc (storage_category category) =
        getCategoryList d (storage_category category) ++
          [⟨t4, category, clarified_info⟩]) ∧
    ((architecture_designer d st design_focus t8 t9 t10 rp sf3 hf3).text =
        (architecture_designer d st design_focus t8 t9 t10 rp
          false false).text ∧
      (architecture_designer d st design_focus t8 t9 t10 rp sf3 hf3).doc =
        (architecture_designer d st design_focus t8 t9 t10 rp
          false false).doc ∧
      (architecture_designer d st design_focus t8 t9 t10 rp
          sf3 hf3).doc.architecture_designs =
        d.architecture_designs ++
          [⟨t8, design_focus,
            architecture_design_text design_focus rp⟩]) := by
  refine ⟨⟨rfl, ?_, ?_⟩, ⟨?_, ?_, ?_⟩, ⟨rfl, ?_, ?_⟩⟩
  · rw [requirement_clarifier_doc, requirement_clarifier_doc]
  · rw [requirement_clarifier_doc]
  · rw [requirement_manager_text, requirement_manager_text]
  · rw [requirement_manager_doc, requirement_manager_doc]
  · rw [requirement_manager_doc, getCategoryList_set_last_updated,
      getCategoryList_appendToCategory_self d _ _
        (storage_category_mem category)]
  · rw [architecture_designer_doc, architecture_designer_doc]
  · rw [architecture_designer_doc]

/-- C10: with `history.json` present but unparsable, each mutating
operation still completes and returns its normal success text (the same
text as with any other history-file state), the in-memory mutation and
the snapshot write still happen, but the new history entry is silently
dropped: the history file is left in its corrupt state and no error is
reported to the caller. -/
theorem corrupt_history_silently_dropped (d : RequirementDocument)
    (reqFile : Option SavedDocFile) (hfAlt : HistoryFile)
    (user_input context clarified_info category design_focus : String)
    (t1 t2 t3 t4 t5 t6 t7 t8 t9 t10 rp hp : String) :
    ((requirement_clarifier d ⟨reqFile, HistoryFile.corrupt⟩ user_input
        context t1 t2 t3 false false).files.history_file =
      HistoryFile.corrupt ∧
      (requirement_clarifier d ⟨reqFile, HistoryFile.corrupt⟩ user_input
          context t1 t2 t3 false false).text =
        (requirement_clarifier d ⟨reqFile, hfAlt⟩ user_input context
          t1 t2 t3 false false).text ∧
      (requirement_clarifier d ⟨reqFile, HistoryFile.corrupt⟩ user_input
          context t1 t2 t3 false false).files.requirements_file =
        some (toSavedFile (requirement_clarifier d
          ⟨reqFile, HistoryFile.corrupt⟩ user_input context t1 t2 t3
          false false).doc) ∧
      (requirement_clarifier d ⟨reqFile, HistoryFile.corrupt⟩ user_input
          context t1 t2 t3 false false).doc.clarification_history =
        d.clarification_history ++ [⟨t1, user_input, context⟩]) ∧
    ((requirement_manager d ⟨reqFile, HistoryFile.corrupt⟩ clarified_info
        category t4 t5 t6 t7 rp hp false false).files.history_file =
      HistoryFile.corrupt ∧
      (requirement_manager d ⟨reqFile, HistoryFile.corrupt⟩ clarified_info
          category t4 t5 t6 t7 rp hp false false).text =
        (requirement_manager d ⟨reqFile, hfAlt⟩ clarified_info category
          t4 t5 t6 t7 rp hp false false).text ∧
      (requirement_manager d ⟨reqFile, HistoryFile.corrupt⟩ clarified_info
          category t4 t5 t6 t7 rp hp false false).files.requirements_file =
        some (toSavedFile (requirement_manager d
          ⟨reqFile, HistoryFile.corrupt⟩ clarified_info category
          t4 t5 t6 t7 rp hp false false).doc) ∧
      getCategoryList
          (requirement_manager d ⟨reqFile, HistoryFile.corrupt⟩
            clarified_info category t4 t5 t6 t7 rp hp false false).doc
          (storage_category category) =
        getCategoryList d (storage_category category) ++
          [⟨t4, category, clarified_info⟩]) ∧
    ((architecture_designer d ⟨reqFile, HistoryFile.corrupt⟩ design_focus
        t8 t9 t10 rp false false).files.history_file =
      HistoryFile.corrupt ∧
      (architecture_designer d ⟨reqFile, HistoryFile.corrupt⟩ design_focus
          t8 t9 t10 rp false false).text =
        (architecture_designer d ⟨reqFile, hfAlt⟩ design_focus t8 t9 t10 rp
          false false).text ∧
      (architecture_designer d ⟨reqFile, HistoryFile.corrupt⟩ design_focus
          t8 t9 t10 rp false false).files.requirements_file =
        some (toSavedFile (architecture_designer d
          ⟨reqFile, HistoryFile.corrupt⟩ design_focus t8 t9 t10 rp
          false false).doc) ∧
      (architecture_designer d ⟨reqFile, HistoryFile.corrupt⟩ design_focus
          t8 t9 t10 rp false false).doc.architecture_designs =
        d.architecture_designs ++
          [⟨t8, design_focus,
            architecture_design_text design_focus rp⟩]) := by
  refine ⟨⟨rfl, rfl, rfl, ?_⟩, ⟨rfl, rfl, rfl, ?_⟩, ⟨rfl, rfl, rfl, ?_⟩⟩
  · rw [requirement_clarifier_doc]
  · rw [requirement_manager_doc, getCategoryList_set_last_updated,
      getCategoryList_appendToCategory_self d _ _
        (storage_category_mem category)]
  · rw [architecture_designer_doc]

end PRDAssistant
